import Mathlib

/-
Shallow embedding of pyano/piano.py: the `Piano` class, a thin state-tracking
wrapper (sound-font lifecycle, audio-driver lifecycle, instrument, recording
mode switching) over the mingus FluidSynthSequencer engine.

The engine itself and the keyboard/utils modules are external to the wrapper;
engine interactions are recorded as an event trace, and the keyboard is an
abstract, already-validated data structure, as the spec prescribes.
-/

namespace Pyano

/-- Modelled from the spec: the piano keyboard from pyano.keyboard (not part of
the wrapper source; per the spec it is "an external, already-validated data
structure"). It exposes the distinct key names of the 88 keys and, for an
integer index, the note of that key (`keyboard[i].get_as_note()`). -/
structure Keyboard where
  distinct_key_names : List String
  keyNote : Nat → String

/-- The part of the third-party synthesis engine that the wrapper's control
flow observes: whether loading the sound-font file at a given path succeeds
(the return value of FluidSynthSequencer.load_sound_font). -/
structure Engine where
  loadFont : String → Bool

/-- An instrument argument: a name string or an instrument number
(Union[str, int] in the source). -/
inductive Instr where
  | name (s : String)
  | num (n : Int)
deriving DecidableEq

/-- Engine-level calls made by the wrapper, recorded as a trace. -/
inductive Event where
  | sfunload
  | sfload (path : String) (ok : Bool)
  | startDriver (driver : Option String)
  | programReset
  | deleteDriver
  | setInstrument (channel : Nat) (instr : Instr) (bank : Nat)
  | startRecording (file : String)
  | playNote (note : String)
  | playNoteContainer (notes : List String)
  | playBar (notes : List String)
  | playTrack (notes : List String)
  | getSamples (n : Nat)
  | writeFrames (n : Nat)
  | wavClose
deriving DecidableEq

/-- Exceptions raised by the wrapper: Python ValueError vs a plain Exception. -/
inductive PError where
  | valueError
  | genericError
deriving DecidableEq

/-- The wrapper's mutable state: the stored sound-font path, the
sound-font-loaded flag, the configured audio driver, the audio-driver-active
flag, the current instrument, plus the engine-side loaded font, the open state
of the recording wav file, and the keyboard. -/
structure Piano where
  sound_fonts_path : String
  sound_fonts_loaded : Bool
  current_audio_driver : Option String
  audio_driver_is_active : Bool
  instrument : Instr
  engineFont : Option String
  wavOpen : Bool
  keyboard : Keyboard

/-- Result of a wrapper method: the state after the call, the engine calls it
made, and the exception it raised, if any (Python leaves the mutations made
before the raise in place). -/
structure PResult where
  piano : Piano
  events : List Event
  err : Option PError

/-- VALID_AUDIO_DRIVERS from piano.py. -/
def VALID_AUDIO_DRIVERS : List (Option String) :=
  [none, some "alsa", some "oss", some "jack", some "portaudio", some "sndmgr",
   some "coreaudio", some "Direct Sound", some "dsound", some "pulseaudio"]

/-- DEFAULT_SOUND_FONTS from piano.py (the packaged FluidR3_GM.sf2 path). -/
def DEFAULT_SOUND_FONTS : String := "pyano/sound_fonts/FluidR3_GM.sf2"

/-- DEFAULT_INSTRUMENTS from piano.py: the eight names with their General MIDI
numbers. -/
def DEFAULT_INSTRUMENTS : List (String × Int) :=
  [("Acoustic Grand Piano", 0), ("Bright Acoustic Piano", 1),
   ("Electric Grand Piano", 2), ("Honky-tonk Piano", 3),
   ("Electric Piano 1", 4), ("Electric Piano 2", 5),
   ("Harpsichord", 6), ("Clavi", 7)]

/-- Lookup of DEFAULT_INSTRUMENTS[name]. -/
def gmLookup (s : String) : Option Int :=
  (DEFAULT_INSTRUMENTS.find? (fun x => x.1 == s)).map (fun x => x.2)

/-- Piano._unload_sound_fonts: unload the engine-side font only when the
sound-font-loaded flag is set (the flag itself is not touched). -/
def unload_sound_fonts (p : Piano) : Piano × List Event :=
  if p.sound_fonts_loaded then
    ({ p with engineFont := none }, [Event.sfunload])
  else (p, [])

/-- Piano.load_sound_fonts: unload the current font when one is loaded, then
attempt the engine load; raise a plain Exception when the engine load fails,
otherwise set the flag and record the new path. -/
def load_sound_fonts (env : Engine) (p : Piano) (path : String) : PResult :=
  let r1 := if p.sound_fonts_loaded then unload_sound_fonts p else (p, [])
  let p1 := r1.1
  let ok := env.loadFont path
  let evs := r1.2 ++ [Event.sfload path ok]
  if ok then
    { piano :=
        { p1 with
          engineFont := some path,
          sound_fonts_loaded := true,
          sound_fonts_path := path },
      events := evs, err := none }
  else
    { piano := p1, events := evs, err := some PError.genericError }

/-- Piano._start_audio_output: guard the configured driver against
VALID_AUDIO_DRIVERS (ValueError), then start the driver and reset the program
only when the audio-driver-active flag is not already set. -/
def start_audio_output (p : Piano) : PResult :=
  if p.current_audio_driver ∈ VALID_AUDIO_DRIVERS then
    if p.audio_driver_is_active then
      { piano := p, events := [], err := none }
    else
      { piano := { p with audio_driver_is_active := true },
        events := [Event.startDriver p.current_audio_driver, Event.programReset],
        err := none }
  else
    { piano := p, events := [], err := some PError.valueError }

/-- Piano._stop_audio_output: delete the audio driver and reset the program
only when the audio-driver-active flag is set. -/
def stop_audio_output (p : Piano) : Piano × List Event :=
  if p.audio_driver_is_active then
    ({ p with audio_driver_is_active := false },
     [Event.deleteDriver, Event.programReset])
  else (p, [])

/-- Piano.load_instrument: when the current sound-font path is the default,
the argument must be one of the eight default instrument names (ValueError
otherwise) and its General MIDI number is sent; with a non-default path the
argument is passed through unguarded. -/
def load_instrument (p : Piano) (instrument : Instr) : PResult :=
  if p.sound_fonts_path == DEFAULT_SOUND_FONTS then
    match instrument with
    | Instr.name s =>
      match gmLookup s with
      | some n =>
        { piano := { p with instrument := Instr.name s },
          events := [Event.setInstrument 1 (Instr.num n) 0], err := none }
      | none => { piano := p, events := [], err := some PError.valueError }
    | Instr.num _ => { piano := p, events := [], err := some PError.valueError }
  else
    { piano := { p with instrument := instrument },
      events := [Event.setInstrument 1 instrument 0], err := none }

/-- A music container as accepted by play's declared interface. Notes are
represented by their string form; NoteContainer, Bar and Track by the list of
note strings the pyano utils extract from them (modelled from the spec: the
utils are an external conversion layer). -/
inductive MusicContainer where
  | str (s : String)
  | intIndex (i : Nat)
  | note (n : String)
  | noteContainer (ns : List String)
  | bar (ns : List String)
  | track (ns : List String)
  | pianoKey (k : String)
deriving DecidableEq

/-- The note strings Piano._lint_music_container extracts from a container;
none for the container shapes that fall through every isinstance branch
(int and PianoKey). -/
def containerNoteStrings : MusicContainer → Option (List String)
  | MusicContainer.str s => some [s]
  | MusicContainer.note n => some [n]
  | MusicContainer.noteContainer ns => some ns
  | MusicContainer.bar ns => some ns
  | MusicContainer.track ns => some ns
  | MusicContainer.intIndex _ => none
  | MusicContainer.pianoKey _ => none

/-- Piano._lint_music_container (reads self.keyboard only): raise ValueError
when some note of the container is not among the keyboard's distinct key
names, and a plain Exception ("Unexpected Error") for container shapes it
does not handle. -/
def lint_music_container (kb : Keyboard) (mc : MusicContainer) : Option PError :=
  match containerNoteStrings mc with
  | none => some PError.genericError
  | some ns =>
    if ns.all (fun n => kb.distinct_key_names.contains n) then none
    else some PError.valueError

/-- Piano._play_music_container (reads self.keyboard only): dispatch to the
matching engine play method; a PianoKey matches no isinstance branch and is
silently ignored. -/
def play_music_container (kb : Keyboard) (mc : MusicContainer) : List Event :=
  match mc with
  | MusicContainer.str s => [Event.playNote s]
  | MusicContainer.intIndex i => [Event.playNote (kb.keyNote i)]
  | MusicContainer.note n => [Event.playNote n]
  | MusicContainer.noteContainer ns => [Event.playNoteContainer ns]
  | MusicContainer.bar ns => [Event.playBar ns]
  | MusicContainer.track ns => [Event.playTrack ns]
  | MusicContainer.pianoKey _ => []

/-- Piano.play: lint the container first, then either start audio output and
play live (recording_file = none), or stop audio output, open the recording
file, play, pull int(record_seconds * 44100) samples, write them to the wav
file, and when stop_recording is set close the file and restart audio
output. -/
def play (p : Piano) (mc : MusicContainer) (recording_file : Option String)
    (record_seconds : Nat) (stop_recording : Bool) : PResult :=
  match lint_music_container p.keyboard mc with
  | some e => { piano := p, events := [], err := some e }
  | none =>
    match recording_file with
    | none =>
      let r := start_audio_output p
      match r.err with
      | some e => { piano := r.piano, events := r.events, err := some e }
      | none =>
        { piano := r.piano,
          events := r.events ++ play_music_container r.piano.keyboard mc,
          err := none }
    | some f =>
      let r1 := stop_audio_output p
      let p1 := r1.1
      let p2 := { p1 with wavOpen := true }
      let n := record_seconds * 44100
      let evs := r1.2 ++ [Event.startRecording f]
        ++ play_music_container p2.keyboard mc
        ++ [Event.getSamples n, Event.writeFrames n]
      if stop_recording then
        let r2 := start_audio_output { p2 with wavOpen := false }
        { piano := r2.piano, events := evs ++ [Event.wavClose] ++ r2.events,
          err := r2.err }
      else
        { piano := p2, events := evs, err := none }

/-- The fresh state Piano.__init__ builds before delegating: fonts not yet
loaded, the given driver stored unvalidated, audio output inactive. -/
def initState (kb : Keyboard) (sound_fonts_path : String)
    (audio_driver : Option String) (instrument : Instr) : Piano :=
  { sound_fonts_path := sound_fonts_path,
    sound_fonts_loaded := false,
    current_audio_driver := audio_driver,
    audio_driver_is_active := false,
    instrument := instrument,
    engineFont := none,
    wavOpen := false,
    keyboard := kb }

/-- Piano.__init__: build the fresh state, load the sound fonts (which may
raise), then load the instrument (which may raise); audio output is not
started. -/
def initPiano (env : Engine) (kb : Keyboard) (sound_fonts_path : String)
    (audio_driver : Option String) (instrument : Instr) : PResult :=
  let r1 := load_sound_fonts env (initState kb sound_fonts_path audio_driver
    instrument) sound_fonts_path
  match r1.err with
  | some e => { piano := r1.piano, events := r1.events, err := some e }
  | none =>
    let r2 := load_instrument r1.piano instrument
    { piano := r2.piano, events := r1.events ++ r2.events, err := r2.err }

/-- The public operations of the wrapper, for reasoning about reachable
states. -/
inductive Op where
  | loadSoundFonts (path : String)
  | loadInstrument (i : Instr)
  | startAudioOutput
  | stopAudioOutput
  | playOp (mc : MusicContainer) (recFile : Option String) (recSeconds : Nat)
      (stopRec : Bool)

/-- One wrapper operation applied to a state. -/
def stepOp (env : Engine) (p : Piano) : Op → PResult
  | Op.loadSoundFonts path => load_sound_fonts env p path
  | Op.loadInstrument i => load_instrument p i
  | Op.startAudioOutput => start_audio_output p
  | Op.stopAudioOutput =>
    let r := stop_audio_output p
    { piano := r.1, events := r.2, err := none }
  | Op.playOp mc rf rs sr => play p mc rf rs sr

/-- Run a sequence of wrapper operations, accumulating the engine-call trace
(a raised exception leaves the object usable, so later calls still run). -/
def runOps (env : Engine) (p : Piano) : List Op → Piano × List Event
  | [] => (p, [])
  | op :: ops =>
    let r := stepOp env p op
    let r2 := runOps env r.piano ops
    (r2.1, r.events ++ r2.2)

/-- The engine-call trace of a full history: construction followed by a
sequence of operations. -/
def traceOf (env : Engine) (kb : Keyboard) (path : String)
    (drv : Option String) (instr : Instr) (ops : List Op) : List Event :=
  let r := initPiano env kb path drv instr
  r.events ++ (runOps env r.piano ops).2

/-- The state reached by a full history. -/
def reachPiano (env : Engine) (kb : Keyboard) (path : String)
    (drv : Option String) (instr : Instr) (ops : List Op) : Piano :=
  (runOps env (initPiano env kb path drv instr).piano ops).1

/-- Whether the engine's audio driver is active after a trace, starting from a
given driver state: startDriver activates it, deleteDriver deactivates it. -/
def updActive (b : Bool) : Event → Bool
  | Event.startDriver _ => true
  | Event.deleteDriver => false
  | _ => b

/-- Fold of updActive over a trace. -/
def activeAfter (b : Bool) (evs : List Event) : Bool :=
  evs.foldl updActive b

/-- Every deleteDriver call in the trace happens while the driver is active
(so no delete can follow another delete without a start in between). -/
def deletesOk : Bool → List Event → Bool
  | _, [] => true
  | b, e :: evs =>
    match e with
    | Event.startDriver _ => deletesOk true evs
    | Event.deleteDriver => b && deletesOk false evs
    | _ => deletesOk b evs

/-- Events that neither start nor delete the audio driver. -/
def driverNeutral : List Event → Bool
  | [] => true
  | e :: evs =>
    match e with
    | Event.startDriver _ => false
    | Event.deleteDriver => false
    | _ => driverNeutral evs

/-- Test fixture: an engine on which every sound-font load succeeds. -/
def goodEnv : Engine := { loadFont := fun _ => true }

/-- Test fixture: an engine that can only load the packaged default fonts. -/
def defaultOnlyEnv : Engine :=
  { loadFont := fun path => path == DEFAULT_SOUND_FONTS }

/-- Test fixture: a small stand-in keyboard (the real 88 key names live in the
external keyboard module). -/
def sampleKeyboard : Keyboard :=
  { distinct_key_names := ["A-0", "C-4", "E-4", "G-4"],
    keyNote := fun _ => "A-0" }

/-- Test fixture: a wrapper state with fonts loaded and audio output active. -/
def pianoA : Piano :=
  { sound_fonts_path := DEFAULT_SOUND_FONTS,
    sound_fonts_loaded := true,
    current_audio_driver := none,
    audio_driver_is_active := true,
    instrument := Instr.name "Acoustic Grand Piano",
    engineFont := some DEFAULT_SOUND_FONTS,
    wavOpen := false,
    keyboard := sampleKeyboard }

/-- Test fixture: a freshly constructed wrapper state, audio output not yet
started. -/
def pianoIdle : Piano :=
  { sound_fonts_path := DEFAULT_SOUND_FONTS,
    sound_fonts_loaded := true,
    current_audio_driver := none,
    audio_driver_is_active := false,
    instrument := Instr.name "Acoustic Grand Piano",
    engineFont := some DEFAULT_SOUND_FONTS,
    wavOpen := false,
    keyboard := sampleKeyboard }

/-- Test fixture: a wrapper state constructed with an unsupported audio
driver (the constructor does not validate the driver). -/
def pianoBadDriver : Piano :=
  { sound_fonts_path := DEFAULT_SOUND_FONTS,
    sound_fonts_loaded := true,
    current_audio_driver := some "bogus",
    audio_driver_is_active := false,
    instrument := Instr.name "Acoustic Grand Piano",
    engineFont := some DEFAULT_SOUND_FONTS,
    wavOpen := false,
    keyboard := sampleKeyboard }

/-- Test fixture: a wrapper state whose sound-font path is not the default
(checks on load_instrument are disabled there). -/
def pianoOtherFonts : Piano :=
  { pianoA with sound_fonts_path := "other.sf2" }

/-- The membership test of load_instrument's guard: whether the argument is
one of the eight default instrument names. -/
def instrumentIsDefaultName : Instr → Bool
  | Instr.name s => DEFAULT_INSTRUMENTS.any (fun x => x.1 == s)
  | Instr.num _ => false

/-- Test fixture: two start/stop round trips after construction. -/
def sampleOps : List Op :=
  [Op.startAudioOutput, Op.stopAudioOutput, Op.startAudioOutput,
   Op.stopAudioOutput]

/-- Test fixture: the engine-call trace of a default construction followed by
sampleOps. -/
def sampleTrace : List Event :=
  traceOf goodEnv sampleKeyboard DEFAULT_SOUND_FONTS none
    (Instr.name "Acoustic Grand Piano") sampleOps

theorem activeAfter_nil (b : Bool) : activeAfter b [] = b := rfl

theorem activeAfter_cons (b : Bool) (e : Event) (evs : List Event) :
    activeAfter b (e :: evs) = activeAfter (updActive b e) evs := rfl

theorem activeAfter_append (b : Bool) (l1 l2 : List Event) :
    activeAfter b (l1 ++ l2) = activeAfter (activeAfter b l1) l2 :=
  List.foldl_append _ _ _ _

theorem deletesOk_append (b : Bool) (l1 l2 : List Event) :
    deletesOk b (l1 ++ l2)
      = (deletesOk b l1 && deletesOk (activeAfter b l1) l2) := by
  induction l1 generalizing b with
  | nil => simp [deletesOk, activeAfter]
  | cons e tl ih =>
    cases e <;>
      simp [deletesOk, activeAfter_cons, updActive, ih, Bool.and_assoc]

theorem driverNeutral_activeAfter (b : Bool) :
    ∀ evs : List Event, driverNeutral evs = true → activeAfter b evs = b := by
  intro evs
  induction evs with
  | nil => intro _; rfl
  | cons e tl ih =>
    intro h
    cases e <;> simp_all [driverNeutral, activeAfter_cons, updActive]

theorem driverNeutral_deletesOk (b : Bool) :
    ∀ evs : List Event, driverNeutral evs = true → deletesOk b evs = true := by
  intro evs
  induction evs with
  | nil => intro _; rfl
  | cons e tl ih =>
    intro h
    cases e <;> simp_all [driverNeutral, deletesOk]

theorem start_audio_output_invalid {p : Piano}
    (h : p.current_audio_driver ∉ VALID_AUDIO_DRIVERS) :
    start_audio_output p
      = { piano := p, events := [], err := some PError.valueError } := by
  simp [start_audio_output, h]

theorem start_audio_output_already_active {p : Piano}
    (hv : p.current_audio_driver ∈ VALID_AUDIO_DRIVERS)
    (h : p.audio_driver_is_active = true) :
    start_audio_output p = { piano := p, events := [], err := none } := by
  simp [start_audio_output, hv, h]

theorem start_audio_output_starts {p : Piano}
    (hv : p.current_audio_driver ∈ VALID_AUDIO_DRIVERS)
    (h : p.audio_driver_is_active = false) :
    start_audio_output p
      = { piano := { p with audio_driver_is_active := true },
          events := [Event.startDriver p.current_audio_driver,
            Event.programReset],
          err := none } := by
  simp [start_audio_output, hv, h]

theorem start_audio_output_valid_err {p : Piano}
    (hv : p.current_audio_driver ∈ VALID_AUDIO_DRIVERS) :
    (start_audio_output p).err = none := by
  by_cases h : p.audio_driver_is_active = true
  · rw [start_audio_output_already_active hv h]
  · rw [start_audio_output_starts hv (Bool.eq_false_iff.mpr h)]

theorem start_audio_output_keyboard (p : Piano) :
    (start_audio_output p).piano.keyboard = p.keyboard := by
  unfold start_audio_output
  split
  · split <;> rfl
  · rfl

theorem start_audio_output_driver (p : Piano) :
    (start_audio_output p).piano.current_audio_driver
      = p.current_audio_driver := by
  unfold start_audio_output
  split
  · split <;> rfl
  · rfl

theorem stop_audio_output_active {p : Piano}
    (h : p.audio_driver_is_active = true) :
    stop_audio_output p
      = ({ p with audio_driver_is_active := false },
         [Event.deleteDriver, Event.programReset]) := by
  simp [stop_audio_output, h]

theorem stop_audio_output_inactive {p : Piano}
    (h : p.audio_driver_is_active = false) :
    stop_audio_output p = (p, []) := by
  simp [stop_audio_output, h]

theorem stop_audio_output_fst_inactive (p : Piano) :
    (stop_audio_output p).1.audio_driver_is_active = false := by
  unfold stop_audio_output
  split <;> simp_all

theorem stop_audio_output_keyboard (p : Piano) :
    (stop_audio_output p).1.keyboard = p.keyboard := by
  unfold stop_audio_output
  split <;> rfl

theorem stop_audio_output_driver (p : Piano) :
    (stop_audio_output p).1.current_audio_driver = p.current_audio_driver := by
  unfold stop_audio_output
  split <;> rfl

theorem play_music_container_neutral (kb : Keyboard) (mc : MusicContainer) :
    driverNeutral (play_music_container kb mc) = true := by
  cases mc <;> simp [play_music_container, driverNeutral]

theorem play_lint_err {p : Piano} {mc : MusicContainer} {e : PError}
    (h : lint_music_container p.keyboard mc = some e)
    (rf : Option String) (rs : Nat) (sr : Bool) :
    play p mc rf rs sr = { piano := p, events := [], err := some e } := by
  simp [play, h]

theorem play_live {p : Piano} {mc : MusicContainer}
    (hl : lint_music_container p.keyboard mc = none)
    (hv : p.current_audio_driver ∈ VALID_AUDIO_DRIVERS) (rs : Nat) (sr : Bool) :
    play p mc none rs sr
      = { piano := (start_audio_output p).piano,
          events := (start_audio_output p).events
            ++ play_music_container p.keyboard mc,
          err := none } := by
  have he := start_audio_output_valid_err hv
  have hk := start_audio_output_keyboard p
  simp [play, hl, he, hk]

theorem play_live_invalid_driver {p : Piano} {mc : MusicContainer}
    (hl : lint_music_container p.keyboard mc = none)
    (hv : p.current_audio_driver ∉ VALID_AUDIO_DRIVERS) (rs : Nat) (sr : Bool) :
    play p mc none rs sr
      = { piano := p, events := [], err := some PError.valueError } := by
  have he := start_audio_output_invalid hv
  simp [play, hl, he]

theorem play_record_keep_open {p : Piano} {mc : MusicContainer}
    (hl : lint_music_container p.keyboard mc = none) (f : String) (rs : Nat) :
    play p mc (some f) rs false
      = { piano := { (stop_audio_output p).1 with wavOpen := true },
          events := (stop_audio_output p).2 ++ [Event.startRecording f]
            ++ play_music_container p.keyboard mc
            ++ [Event.getSamples (rs * 44100), Event.writeFrames (rs * 44100)],
          err := none } := by
  obtain ⟨sfp, sfl, cad, ada, ins, ef, wo, kb⟩ := p
  cases ada <;> simp_all [play, stop_audio_output]

theorem play_record_and_stop {p : Piano} {mc : MusicContainer}
    (hl : lint_music_container p.keyboard mc = none)
    (hv : p.current_audio_driver ∈ VALID_AUDIO_DRIVERS) (f : String) (rs : Nat) :
    play p mc (some f) rs true
      = { piano :=
            { (stop_audio_output p).1 with
              wavOpen := false,
              audio_driver_is_active := true },
          events := (stop_audio_output p).2 ++ [Event.startRecording f]
            ++ play_music_container p.keyboard mc
            ++ [Event.getSamples (rs * 44100), Event.writeFrames (rs * 44100),
                Event.wavClose, Event.startDriver p.current_audio_driver,
                Event.programReset],
          err := none } := by
  obtain ⟨sfp, sfl, cad, ada, ins, ef, wo, kb⟩ := p
  cases ada <;> simp_all [play, stop_audio_output, start_audio_output]

theorem load_sound_fonts_success_loaded {env : Engine} {p : Piano}
    {path : String} (h : env.loadFont path = true)
    (hl : p.sound_fonts_loaded = true) :
    load_sound_fonts env p path
      = { piano :=
            { p with
              engineFont := some path,
              sound_fonts_loaded := true,
              sound_fonts_path := path },
          events := [Event.sfunload, Event.sfload path true], err := none } := by
  simp [load_sound_fonts, unload_sound_fonts, h, hl]

theorem load_sound_fonts_success_fresh {env : Engine} {p : Piano}
    {path : String} (h : env.loadFont path = true)
    (hl : p.sound_fonts_loaded = false) :
    load_sound_fonts env p path
      = { piano :=
            { p with
              engineFont := some path,
              sound_fonts_loaded := true,
              sound_fonts_path := path },
          events := [Event.sfload path true], err := none } := by
  simp [load_sound_fonts, unload_sound_fonts, h, hl]

theorem load_sound_fonts_failure_loaded {env : Engine} {p : Piano}
    {path : String} (h : env.loadFont path = false)
    (hl : p.sound_fonts_loaded = true) :
    load_sound_fonts env p path
      = { piano := { p with engineFont := none },
          events := [Event.sfunload, Event.sfload path false],
          err := some PError.genericError } := by
  simp [load_sound_fonts, unload_sound_fonts, h, hl]

theorem load_sound_fonts_failure_fresh {env : Engine} {p : Piano}
    {path : String} (h : env.loadFont path = false)
    (hl : p.sound_fonts_loaded = false) :
    load_sound_fonts env p path
      = { piano := p, events := [Event.sfload path false],
          err := some PError.genericError } := by
  simp [load_sound_fonts, unload_sound_fonts, h, hl]

theorem load_sound_fonts_piano_fields (env : Engine) (p : Piano)
    (path : String) :
    (load_sound_fonts env p path).piano.audio_driver_is_active
        = p.audio_driver_is_active
      ∧ (load_sound_fonts env p path).piano.current_audio_driver
        = p.current_audio_driver
      ∧ (load_sound_fonts env p path).piano.keyboard = p.keyboard
      ∧ (load_sound_fonts env p path).piano.wavOpen = p.wavOpen := by
  unfold load_sound_fonts unload_sound_fonts
  by_cases h : p.sound_fonts_loaded = true <;>
    by_cases ho : env.loadFont path = true <;>
      simp [h, ho]

theorem load_sound_fonts_neutral (env : Engine) (p : Piano) (path : String) :
    driverNeutral (load_sound_fonts env p path).events = true := by
  unfold load_sound_fonts unload_sound_fonts
  by_cases h : p.sound_fonts_loaded = true <;>
    by_cases ho : env.loadFont path = true <;>
      simp [h, ho, driverNeutral]

theorem load_sound_fonts_err (env : Engine) (p : Piano) (path : String) :
    (load_sound_fonts env p path).err
      = if env.loadFont path then none else some PError.genericError := by
  unfold load_sound_fonts unload_sound_fonts
  by_cases h : p.sound_fonts_loaded = true <;>
    by_cases ho : env.loadFont path = true <;>
      simp [h, ho]

theorem load_instrument_default_known {p : Piano} {s : String} {n : Int}
    (hd : p.sound_fonts_path = DEFAULT_SOUND_FONTS) (hg : gmLookup s = some n) :
    load_instrument p (Instr.name s)
      = { piano := { p with instrument := Instr.name s },
          events := [Event.setInstrument 1 (Instr.num n) 0], err := none } := by
  simp [load_instrument, hd, hg]

theorem load_instrument_default_unknown {p : Piano} {s : String}
    (hd : p.sound_fonts_path = DEFAULT_SOUND_FONTS) (hg : gmLookup s = none) :
    load_instrument p (Instr.name s)
      = { piano := p, events := [], err := some PError.valueError } := by
  simp [load_instrument, hd, hg]

theorem load_instrument_default_num {p : Piano} {n : Int}
    (hd : p.sound_fonts_path = DEFAULT_SOUND_FONTS) :
    load_instrument p (Instr.num n)
      = { piano := p, events := [], err := some PError.valueError } := by
  simp [load_instrument, hd]

theorem load_instrument_nondefault {p : Piano}
    (hd : p.sound_fonts_path ≠ DEFAULT_SOUND_FONTS) (i : Instr) :
    load_instrument p i
      = { piano := { p with instrument := i },
          events := [Event.setInstrument 1 i 0], err := none } := by
  simp [load_instrument, hd]

theorem load_instrument_piano_fields (p : Piano) (i : Instr) :
    (load_instrument p i).piano.audio_driver_is_active
        = p.audio_driver_is_active
      ∧ (load_instrument p i).piano.sound_fonts_loaded = p.sound_fonts_loaded
      ∧ (load_instrument p i).piano.current_audio_driver
        = p.current_audio_driver
      ∧ (load_instrument p i).piano.keyboard = p.keyboard
      ∧ (load_instrument p i).piano.sound_fonts_path = p.sound_fonts_path := by
  unfold load_instrument
  split
  · cases i with
    | name s => cases hg : gmLookup s <;> simp [hg]
    | num n => simp
  · simp

theorem load_instrument_neutral (p : Piano) (i : Instr) :
    driverNeutral (load_instrument p i).events = true := by
  unfold load_instrument
  split
  · cases i with
    | name s => cases hg : gmLookup s <;> simp [hg, driverNeutral]
    | num n => simp [driverNeutral]
  · simp [driverNeutral]

theorem driverNeutral_append (l1 l2 : List Event) :
    driverNeutral (l1 ++ l2) = (driverNeutral l1 && driverNeutral l2) := by
  induction l1 with
  | nil => simp [driverNeutral]
  | cons e tl ih => cases e <;> simp [driverNeutral, ih]

theorem play_record_and_stop_invalid {p : Piano} {mc : MusicContainer}
    (hl : lint_music_container p.keyboard mc = none)
    (hv : p.current_audio_driver ∉ VALID_AUDIO_DRIVERS) (f : String)
    (rs : Nat) :
    play p mc (some f) rs true
      = { piano := { (stop_audio_output p).1 with wavOpen := false },
          events := (stop_audio_output p).2 ++ [Event.startRecording f]
            ++ play_music_container p.keyboard mc
            ++ [Event.getSamples (rs * 44100), Event.writeFrames (rs * 44100),
                Event.wavClose],
          err := some PError.valueError } := by
  obtain ⟨sfp, sfl, cad, ada, ins, ef, wo, kb⟩ := p
  cases ada <;> simp_all [play, stop_audio_output, start_audio_output]

theorem start_audio_output_invariant (p : Piano) :
    (start_audio_output p).piano.audio_driver_is_active
        = activeAfter p.audio_driver_is_active (start_audio_output p).events
      ∧ deletesOk p.audio_driver_is_active (start_audio_output p).events
        = true := by
  unfold start_audio_output
  split
  · split <;> simp_all [activeAfter, List.foldl, updActive, deletesOk]
  · simp [activeAfter, deletesOk]

theorem stop_audio_output_invariant (p : Piano) :
    (stop_audio_output p).1.audio_driver_is_active
        = activeAfter p.audio_driver_is_active (stop_audio_output p).2
      ∧ deletesOk p.audio_driver_is_active (stop_audio_output p).2 = true := by
  unfold stop_audio_output
  split <;> simp_all [activeAfter, List.foldl, updActive, deletesOk]

theorem play_invariant (p : Piano) (mc : MusicContainer) (rf : Option String)
    (rs : Nat) (sr : Bool) :
    (play p mc rf rs sr).piano.audio_driver_is_active
        = activeAfter p.audio_driver_is_active (play p mc rf rs sr).events
      ∧ deletesOk p.audio_driver_is_active (play p mc rf rs sr).events
        = true := by
  have hpm := play_music_container_neutral p.keyboard mc
  have hstop := stop_audio_output_invariant p
  cases hl : lint_music_container p.keyboard mc with
  | some e =>
    rw [play_lint_err hl]
    exact ⟨rfl, rfl⟩
  | none =>
    by_cases hv : p.current_audio_driver ∈ VALID_AUDIO_DRIVERS
    · cases rf with
      | none =>
        rw [play_live hl hv rs sr]
        have hs := start_audio_output_invariant p
        constructor
        · simp only [activeAfter_append]
          rw [← hs.1, driverNeutral_activeAfter _ _ hpm]
        · simp only [deletesOk_append]
          rw [hs.2, ← hs.1, driverNeutral_deletesOk _ _ hpm]
          rfl
      | some f =>
        cases sr with
        | false =>
          rw [play_record_keep_open hl f rs]
          constructor
          · simp only [activeAfter_append]
            rw [← hstop.1, driverNeutral_activeAfter _ _ hpm]
            simp [activeAfter, List.foldl, updActive]
          · simp only [deletesOk_append]
            rw [hstop.2, ← hstop.1, driverNeutral_deletesOk _ _ hpm]
            simp [deletesOk, activeAfter, List.foldl, updActive]
        | true =>
          rw [play_record_and_stop hl hv f rs]
          constructor
          · simp only [activeAfter_append]
            simp [activeAfter, List.foldl, updActive]
          · simp only [deletesOk_append]
            rw [hstop.2, ← hstop.1, driverNeutral_deletesOk _ _ hpm]
            simp [deletesOk, activeAfter, List.foldl, updActive]
    · cases rf with
      | none =>
        rw [play_live_invalid_driver hl hv rs sr]
        exact ⟨rfl, rfl⟩
      | some f =>
        cases sr with
        | false =>
          rw [play_record_keep_open hl f rs]
          constructor
          · simp only [activeAfter_append]
            rw [← hstop.1, driverNeutral_activeAfter _ _ hpm]
            simp [activeAfter, List.foldl, updActive]
          · simp only [deletesOk_append]
            rw [hstop.2, ← hstop.1, driverNeutral_deletesOk _ _ hpm]
            simp [deletesOk, activeAfter, List.foldl, updActive]
        | true =>
          rw [play_record_and_stop_invalid hl hv f rs]
          constructor
          · simp only [activeAfter_append]
            rw [← hstop.1, driverNeutral_activeAfter _ _ hpm]
            simp [activeAfter, List.foldl, updActive, stop_audio_output_fst_inactive]
          · simp only [deletesOk_append]
            rw [hstop.2, ← hstop.1, driverNeutral_deletesOk _ _ hpm]
            simp [deletesOk, activeAfter, List.foldl, updActive]

theorem stepOp_invariant (env : Engine) (p : Piano) (op : Op) :
    (stepOp env p op).piano.audio_driver_is_active
        = activeAfter p.audio_driver_is_active (stepOp env p op).events
      ∧ deletesOk p.audio_driver_is_active (stepOp env p op).events = true := by
  cases op with
  | loadSoundFonts path =>
    have h1 := load_sound_fonts_neutral env p path
    have h2 := (load_sound_fonts_piano_fields env p path).1
    exact ⟨by rw [stepOp, h2, driverNeutral_activeAfter _ _ h1],
           driverNeutral_deletesOk _ _ h1⟩
  | loadInstrument i =>
    have h1 := load_instrument_neutral p i
    have h2 := (load_instrument_piano_fields p i).1
    exact ⟨by rw [stepOp, h2, driverNeutral_activeAfter _ _ h1],
           driverNeutral_deletesOk _ _ h1⟩
  | startAudioOutput => exact start_audio_output_invariant p
  | stopAudioOutput => exact stop_audio_output_invariant p
  | playOp mc rf rs sr => exact play_invariant p mc rf rs sr

theorem runOps_invariant (env : Engine) : ∀ (ops : List Op) (p : Piano),
    (runOps env p ops).1.audio_driver_is_active
        = activeAfter p.audio_driver_is_active (runOps env p ops).2
      ∧ deletesOk p.audio_driver_is_active (runOps env p ops).2 = true := by
  intro ops
  induction ops with
  | nil => intro p; exact ⟨rfl, rfl⟩
  | cons op ops ih =>
    intro p
    have hs := stepOp_invariant env p op
    have ht := ih (stepOp env p op).piano
    constructor
    · show (runOps env (stepOp env p op).piano ops).1.audio_driver_is_active = _
      rw [ht.1]
      simp only [runOps, activeAfter_append]
      rw [← hs.1]
    · show deletesOk _ ((stepOp env p op).events
        ++ (runOps env (stepOp env p op).piano ops).2) = true
      simp only [deletesOk_append]
      rw [hs.2, ← hs.1, ht.2]
      rfl

theorem deletesOk_start_before :
    ∀ evs : List Event, deletesOk false evs = true →
      ∀ j, evs[j]? = some Event.deleteDriver →
        ∃ (k : Nat) (d : Option String), k < j ∧ evs[k]? = some (Event.startDriver d) := by
  intro evs
  induction evs with
  | nil => intro _ j hj; simp at hj
  | cons e tl ih =>
    intro h j hj
    cases j with
    | zero =>
      simp at hj
      subst hj
      simp [deletesOk] at h
    | succ j =>
      simp only [List.getElem?_cons_succ] at hj
      cases e
      case startDriver d => exact ⟨0, d, Nat.succ_pos j, by simp⟩
      case deleteDriver => simp [deletesOk] at h
      all_goals
        simp only [deletesOk] at h
        obtain ⟨k, d, hk, hget⟩ := ih h j hj
        exact ⟨k + 1, d, Nat.succ_lt_succ hk, by simpa using hget⟩

theorem deletesOk_between :
    ∀ (evs : List Event) (b : Bool), deletesOk b evs = true →
      ∀ i j, i < j → evs[i]? = some Event.deleteDriver →
        evs[j]? = some Event.deleteDriver →
        ∃ (k : Nat) (d : Option String), i < k ∧ k < j ∧ evs[k]? = some (Event.startDriver d) := by
  intro evs
  induction evs with
  | nil => intro b _ i j _ hi _; simp at hi
  | cons e tl ih =>
    intro b h i j hij hi hj
    cases j with
    | zero => exact absurd hij (Nat.not_lt_zero i)
    | succ j =>
      simp only [List.getElem?_cons_succ] at hj
      cases i with
      | zero =>
        simp at hi
        subst hi
        simp only [deletesOk, Bool.and_eq_true] at h
        obtain ⟨k, d, hk, hget⟩ := deletesOk_start_before tl h.2 j hj
        exact ⟨k + 1, d, Nat.succ_pos k, Nat.succ_lt_succ hk,
          by simpa using hget⟩
      | succ i =>
        simp only [List.getElem?_cons_succ] at hi
        have hij2 : i < j := Nat.lt_of_succ_lt_succ hij
        cases e
        case startDriver d =>
          simp only [deletesOk] at h
          obtain ⟨k, d2, hik, hkj, hget⟩ := ih true h i j hij2 hi hj
          exact ⟨k + 1, d2, Nat.succ_lt_succ hik, Nat.succ_lt_succ hkj,
            by simpa using hget⟩
        case deleteDriver =>
          simp only [deletesOk, Bool.and_eq_true] at h
          obtain ⟨k, d2, hik, hkj, hget⟩ := ih false h.2 i j hij2 hi hj
          exact ⟨k + 1, d2, Nat.succ_lt_succ hik, Nat.succ_lt_succ hkj,
            by simpa using hget⟩
        all_goals
          simp only [deletesOk] at h
          obtain ⟨k, d2, hik, hkj, hget⟩ := ih b h i j hij2 hi hj
          exact ⟨k + 1, d2, Nat.succ_lt_succ hik, Nat.succ_lt_succ hkj,
            by simpa using hget⟩

theorem activeAfter_true_start_since :
    ∀ evs : List Event, activeAfter false evs = true →
      ∃ (k : Nat) (d : Option String), evs[k]? = some (Event.startDriver d)
        ∧ ∀ j, k < j → evs[j]? ≠ some Event.deleteDriver := by
  intro evs
  induction evs using List.reverseRecOn with
  | nil => intro h; simp [activeAfter] at h
  | append_singleton evs e ih =>
    intro h
    rw [activeAfter_append] at h
    cases e
    case startDriver d =>
      refine ⟨evs.length, d, List.getElem?_concat_length evs _, ?_⟩
      intro j hj
      rw [List.getElem?_eq_none (by simp [Nat.succ_le_of_lt hj])]
      simp
    case deleteDriver =>
      simp [activeAfter, List.foldl, updActive] at h
    all_goals
      replace h : activeAfter false evs = true := h
      obtain ⟨k, d, hget, hnd⟩ := ih h
      have hk : k < evs.length := by
        by_contra hc
        rw [List.getElem?_eq_none (Nat.le_of_not_lt hc)] at hget
        cases hget
      refine ⟨k, d, by rw [List.getElem?_append_left hk]; exact hget, ?_⟩
      intro j hj
      by_cases hjl : j < evs.length
      · rw [List.getElem?_append_left hjl]
        exact hnd j hj
      · by_cases hje : j = evs.length
        · subst hje
          rw [List.getElem?_concat_length]
          intro hc
          cases hc
        · rw [List.getElem?_eq_none
            (by simp [Nat.succ_le_of_lt (Nat.lt_of_le_of_ne (Nat.le_of_not_lt hjl) (Ne.symm hje))])]
          simp

theorem initPiano_neutral (env : Engine) (kb : Keyboard) (path : String)
    (drv : Option String) (i : Instr) :
    driverNeutral (initPiano env kb path drv i).events = true := by
  simp only [initPiano]
  cases he : (load_sound_fonts env (initState kb path drv i) path).err with
  | some e => exact load_sound_fonts_neutral env _ path
  | none =>
    show driverNeutral ((load_sound_fonts env (initState kb path drv i) path).events
      ++ (load_instrument (load_sound_fonts env (initState kb path drv i) path).piano i).events) = true
    rw [driverNeutral_append, load_sound_fonts_neutral, load_instrument_neutral]
    rfl

theorem initPiano_active (env : Engine) (kb : Keyboard) (path : String)
    (drv : Option String) (i : Instr) :
    (initPiano env kb path drv i).piano.audio_driver_is_active = false := by
  simp only [initPiano]
  cases he : (load_sound_fonts env (initState kb path drv i) path).err with
  | some e => exact (load_sound_fonts_piano_fields env _ path).1
  | none =>
    show (load_instrument (load_sound_fonts env (initState kb path drv i) path).piano
      i).piano.audio_driver_is_active = false
    rw [(load_instrument_piano_fields _ i).1]
    exact (load_sound_fonts_piano_fields env _ path).1

theorem initPiano_loaded (env : Engine) (kb : Keyboard) (path : String)
    (drv : Option String) (i : Instr)
    (h : (initPiano env kb path drv i).err = none) :
    (initPiano env kb path drv i).piano.sound_fonts_loaded = true := by
  simp only [initPiano] at h ⊢
  cases he : (load_sound_fonts env (initState kb path drv i) path).err with
  | some e =>
    rw [he] at h
    simp at h
  | none =>
    show (load_instrument (load_sound_fonts env (initState kb path drv i) path).piano
      i).piano.sound_fonts_loaded = true
    rw [(load_instrument_piano_fields _ i).2.1]
    have hfont : env.loadFont path = true := by
      cases hf : env.loadFont path with
      | true => rfl
      | false =>
        rw [load_sound_fonts_err, hf] at he
        simp at he
    rw [load_sound_fonts_success_fresh hfont rfl]

theorem traceOf_deletesOk (env : Engine) (kb : Keyboard) (path : String)
    (drv : Option String) (i : Instr) (ops : List Op) :
    deletesOk false (traceOf env kb path drv i ops) = true := by
  simp only [traceOf]
  rw [deletesOk_append]
  have h1 := initPiano_neutral env kb path drv i
  have h2 := runOps_invariant env ops (initPiano env kb path drv i).piano
  rw [initPiano_active env kb path drv i] at h2
  rw [driverNeutral_deletesOk _ _ h1, driverNeutral_activeAfter _ _ h1, h2.2]
  rfl

theorem reach_active_eq (env : Engine) (kb : Keyboard) (path : String)
    (drv : Option String) (i : Instr) (ops : List Op) :
    (reachPiano env kb path drv i ops).audio_driver_is_active
      = activeAfter false (traceOf env kb path drv i ops) := by
  simp only [reachPiano, traceOf]
  rw [activeAfter_append]
  have h1 := initPiano_neutral env kb path drv i
  rw [driverNeutral_activeAfter _ _ h1]
  have h2 := runOps_invariant env ops (initPiano env kb path drv i).piano
  rw [initPiano_active env kb path drv i] at h2
  exact h2.1

theorem start_audio_output_active_after {p : Piano}
    (hv : p.current_audio_driver ∈ VALID_AUDIO_DRIVERS) :
    (start_audio_output p).piano.audio_driver_is_active = true := by
  by_cases h : p.audio_driver_is_active = true
  · rw [start_audio_output_already_active hv h]
    exact h
  · rw [start_audio_output_starts hv (Bool.eq_false_iff.mpr h)]

theorem lint_spec (kb : Keyboard) {mc : MusicContainer} {ns : List String}
    (hshape : containerNoteStrings mc = some ns) :
    lint_music_container kb mc
      = if ns.all (fun n => kb.distinct_key_names.contains n) then none
        else some PError.valueError := by
  simp [lint_music_container, hshape]

theorem gmLookup_none_iff (s : String) :
    gmLookup s = none ↔ instrumentIsDefaultName (Instr.name s) = false := by
  simp [gmLookup, instrumentIsDefaultName, List.find?_eq_none,
    List.any_eq_false]

theorem samples_not_mem_stop (p : Piano) (m : Nat) :
    Event.getSamples m ∉ (stop_audio_output p).2
    ∧ Event.writeFrames m ∉ (stop_audio_output p).2 := by
  unfold stop_audio_output
  split <;> simp

theorem samples_not_mem_pm (kb : Keyboard) (mc : MusicContainer) (m : Nat) :
    Event.getSamples m ∉ play_music_container kb mc
    ∧ Event.writeFrames m ∉ play_music_container kb mc := by
  cases mc <;> simp [play_music_container]

/-- C3: play's declared interface includes integer key indexes (and
PianoKey), and _play_music_container has an int branch that would play
keyboard[i]'s note, but _lint_music_container runs first and raises a plain
Exception ("Unexpected Error") for every int input, so the dispatch is
unreachable: play with an integer key index always raises instead of playing
the note of that key. -/
theorem C3_int_index_unexpected_error (p : Piano) (i : Nat)
    (rf : Option String) (rs : Nat) (sr : Bool) :
    (play p (MusicContainer.intIndex i) rf rs sr).err
        = some PError.genericError
      ∧ (play p (MusicContainer.intIndex i) rf rs sr).events = []
      ∧ (play p (MusicContainer.intIndex i) rf rs sr).piano = p
      ∧ play_music_container p.keyboard (MusicContainer.intIndex i)
        = [Event.playNote (p.keyboard.keyNote i)] := by
  have h : lint_music_container p.keyboard (MusicContainer.intIndex i)
      = some PError.genericError := rfl
  rw [play_lint_err h rf rs sr]
  exact ⟨rfl, rfl, rfl, rfl⟩

/-- C4 counterexample: with the default font loaded and an engine that cannot
load "missing.sf2", the failed load_sound_fonts call raises, yet the engine
font was already unloaded (sfunload was called and the engine-side font is
gone), so the sound-font state is not fully unchanged. -/
theorem C4_counterexample :
    pianoA.sound_fonts_loaded = true
      ∧ pianoA.engineFont = some DEFAULT_SOUND_FONTS
      ∧ defaultOnlyEnv.loadFont "missing.sf2" = false
      ∧ (load_sound_fonts defaultOnlyEnv pianoA "missing.sf2").err
        = some PError.genericError
      ∧ (load_sound_fonts defaultOnlyEnv pianoA "missing.sf2").piano.engineFont
        = none
      ∧ Event.sfunload
        ∈ (load_sound_fonts defaultOnlyEnv pianoA "missing.sf2").events := by
  refine ⟨rfl, rfl, by decide, ?_, ?_, ?_⟩ <;> decide

/-- C4 (amended): when a font is loaded and the engine cannot load the new
path, load_sound_fonts raises and leaves the sound-font-loaded flag and the
stored path unchanged, but the previously loaded font has already been
unloaded from the engine (sfunload precedes the load attempt). -/
theorem C4_failed_load_state (env : Engine) (p : Piano) (path : String)
    (hfail : env.loadFont path = false)
    (hloaded : p.sound_fonts_loaded = true) :
    (load_sound_fonts env p path).err = some PError.genericError
      ∧ (load_sound_fonts env p path).piano.sound_fonts_loaded
        = p.sound_fonts_loaded
      ∧ (load_sound_fonts env p path).piano.sound_fonts_path
        = p.sound_fonts_path
      ∧ (load_sound_fonts env p path).piano.engineFont = none
      ∧ (load_sound_fonts env p path).events
        = [Event.sfunload, Event.sfload path false] := by
  rw [load_sound_fonts_failure_loaded hfail hloaded]
  exact ⟨rfl, rfl, rfl, rfl, rfl⟩

/-- C4 witness: the amended statement applied at the counterexample input. -/
theorem C4_failed_load_state_witness :
    (defaultOnlyEnv.loadFont "missing.sf2" = false
      ∧ pianoA.sound_fonts_loaded = true)
    ∧ ((load_sound_fonts defaultOnlyEnv pianoA "missing.sf2").err
        = some PError.genericError
      ∧ (load_sound_fonts defaultOnlyEnv pianoA "missing.sf2").piano.sound_fonts_loaded
        = pianoA.sound_fonts_loaded
      ∧ (load_sound_fonts defaultOnlyEnv pianoA "missing.sf2").piano.sound_fonts_path
        = pianoA.sound_fonts_path
      ∧ (load_sound_fonts defaultOnlyEnv pianoA "missing.sf2").piano.engineFont
        = none
      ∧ (load_sound_fonts defaultOnlyEnv pianoA "missing.sf2").events
        = [Event.sfunload, Event.sfload "missing.sf2" false]) :=
  ⟨⟨by decide, rfl⟩,
   C4_failed_load_state defaultOnlyEnv pianoA "missing.sf2" (by decide) rfl⟩

/-- C5: _start_audio_output with the active flag already true and
_stop_audio_output with it already false are no-ops on the state with no
engine calls, and in every trace of a constructed wrapper two deleteDriver
engine calls always have a startDriver call strictly between them. -/
theorem C5_idempotent_audio_lifecycle :
    (∀ p : Piano, p.audio_driver_is_active = true →
        (start_audio_output p).piano = p
        ∧ (start_audio_output p).events = [])
    ∧ (∀ p : Piano, p.audio_driver_is_active = false →
        (stop_audio_output p).1 = p ∧ (stop_audio_output p).2 = [])
    ∧ (∀ (env : Engine) (kb : Keyboard) (path : String) (drv : Option String)
        (instr : Instr) (ops : List Op) (i j : Nat),
        (initPiano env kb path drv instr).err = none →
        i < j →
        (traceOf env kb path drv instr ops)[i]? = some Event.deleteDriver →
        (traceOf env kb path drv instr ops)[j]? = some Event.deleteDriver →
        ∃ (k : Nat) (d : Option String), i < k ∧ k < j
          ∧ (traceOf env kb path drv instr ops)[k]?
            = some (Event.startDriver d)) := by
  refine ⟨?_, ?_, ?_⟩
  · intro p h
    by_cases hv : p.current_audio_driver ∈ VALID_AUDIO_DRIVERS
    · rw [start_audio_output_already_active hv h]
      exact ⟨rfl, rfl⟩
    · rw [start_audio_output_invalid hv]
      exact ⟨rfl, rfl⟩
  · intro p h
    rw [stop_audio_output_inactive h]
    exact ⟨rfl, rfl⟩
  · intro env kb path drv instr ops i j _ hij hi hj
    exact deletesOk_between (traceOf env kb path drv instr ops) false
      (traceOf_deletesOk env kb path drv instr ops) i j hij hi hj

/-- C5 witness: the no-op cases at concrete states, and the two deletes of a
start/stop/start/stop history with a start in between. -/
theorem C5_idempotent_audio_lifecycle_witness :
    (pianoA.audio_driver_is_active = true
      ∧ (start_audio_output pianoA).piano = pianoA
      ∧ (start_audio_output pianoA).events = [])
    ∧ (pianoIdle.audio_driver_is_active = false
      ∧ (stop_audio_output pianoIdle).1 = pianoIdle
      ∧ (stop_audio_output pianoIdle).2 = [])
    ∧ ((initPiano goodEnv sampleKeyboard DEFAULT_SOUND_FONTS none
          (Instr.name "Acoustic Grand Piano")).err = none
      ∧ sampleTrace[4]? = some Event.deleteDriver
      ∧ sampleTrace[8]? = some Event.deleteDriver
      ∧ ∃ (k : Nat) (d : Option String), 4 < k ∧ k < 8
          ∧ sampleTrace[k]? = some (Event.startDriver d)) :=
  ⟨⟨rfl, (C5_idempotent_audio_lifecycle.1 pianoA rfl).1,
     (C5_idempotent_audio_lifecycle.1 pianoA rfl).2⟩,
   ⟨rfl, (C5_idempotent_audio_lifecycle.2.1 pianoIdle rfl).1,
     (C5_idempotent_audio_lifecycle.2.1 pianoIdle rfl).2⟩,
   by decide, by decide, by decide,
   C5_idempotent_audio_lifecycle.2.2 goodEnv sampleKeyboard
     DEFAULT_SOUND_FONTS none (Instr.name "Acoustic Grand Piano") sampleOps
     4 8 (by decide) (by decide) (by decide) (by decide)⟩

/-- C6: load_sound_fonts raises exactly when the engine load fails; on
success the flag is set, the new path is recorded, the engine holds the new
font, and a previously loaded font was unloaded first. -/
theorem C6_load_sound_fonts_spec (env : Engine) (p : Piano) (path : String) :
    ((load_sound_fonts env p path).err.isSome
        ↔ env.loadFont path = false)
    ∧ (env.loadFont path = true →
        (load_sound_fonts env p path).piano.sound_fonts_loaded = true
        ∧ (load_sound_fonts env p path).piano.sound_fonts_path = path
        ∧ (load_sound_fonts env p path).piano.engineFont = some path
        ∧ (p.sound_fonts_loaded = true →
            (load_sound_fonts env p path).events
              = [Event.sfunload, Event.sfload path true])) := by
  cases hf : env.loadFont path with
  | false =>
    cases hl : p.sound_fonts_loaded with
    | false =>
      rw [load_sound_fonts_failure_fresh hf hl]
      exact ⟨by simp, fun hc => absurd hc (by simp)⟩
    | true =>
      rw [load_sound_fonts_failure_loaded hf hl]
      exact ⟨by simp, fun hc => absurd hc (by simp)⟩
  | true =>
    cases hl : p.sound_fonts_loaded with
    | false =>
      rw [load_sound_fonts_success_fresh hf hl]
      exact ⟨by simp, fun _ => ⟨rfl, rfl, rfl, fun hc => absurd hc (by simp [hl])⟩⟩
    | true =>
      rw [load_sound_fonts_success_loaded hf hl]
      exact ⟨by simp, fun _ => ⟨rfl, rfl, rfl, fun _ => rfl⟩⟩

/-- C6 witness: a successful reload of the default fonts over a loaded
font. -/
theorem C6_load_sound_fonts_spec_witness :
    ((load_sound_fonts defaultOnlyEnv pianoA DEFAULT_SOUND_FONTS).err.isSome
        ↔ defaultOnlyEnv.loadFont DEFAULT_SOUND_FONTS = false)
    ∧ (load_sound_fonts defaultOnlyEnv pianoA
        DEFAULT_SOUND_FONTS).piano.sound_fonts_loaded = true
    ∧ (load_sound_fonts defaultOnlyEnv pianoA
        DEFAULT_SOUND_FONTS).piano.sound_fonts_path = DEFAULT_SOUND_FONTS
    ∧ (load_sound_fonts defaultOnlyEnv pianoA
        DEFAULT_SOUND_FONTS).piano.engineFont = some DEFAULT_SOUND_FONTS
    ∧ (load_sound_fonts defaultOnlyEnv pianoA DEFAULT_SOUND_FONTS).events
        = [Event.sfunload, Event.sfload DEFAULT_SOUND_FONTS true] := by
  have h := C6_load_sound_fonts_spec defaultOnlyEnv pianoA DEFAULT_SOUND_FONTS
  have h2 := h.2 (by decide)
  exact ⟨h.1, h2.1, h2.2.1, h2.2.2.1, h2.2.2.2 rfl⟩

/-- C8: _start_audio_output raises ValueError exactly when the configured
driver is not among the ten allowed values, and in that case no engine call
is made and the state is unchanged (the guard runs first). -/
theorem C8_start_driver_guard (p : Piano) :
    ((start_audio_output p).err = some PError.valueError
        ↔ p.current_audio_driver ∉ VALID_AUDIO_DRIVERS)
    ∧ (p.current_audio_driver ∉ VALID_AUDIO_DRIVERS →
        start_audio_output p
          = { piano := p, events := [], err := some PError.valueError }) := by
  by_cases hv : p.current_audio_driver ∈ VALID_AUDIO_DRIVERS
  · refine ⟨⟨fun hc => ?_, fun hc => absurd hv hc⟩, fun hc => absurd hv hc⟩
    rw [start_audio_output_valid_err hv] at hc
    exact Option.noConfusion hc
  · rw [start_audio_output_invalid hv]
    exact ⟨⟨fun _ => hv, fun _ => rfl⟩, fun _ => rfl⟩

/-- C8 witness: the guard at a state configured with driver "bogus". -/
theorem C8_start_driver_guard_witness :
    ((start_audio_output pianoBadDriver).err = some PError.valueError
        ↔ pianoBadDriver.current_audio_driver ∉ VALID_AUDIO_DRIVERS)
    ∧ start_audio_output pianoBadDriver
        = { piano := pianoBadDriver, events := [],
            err := some PError.valueError } :=
  ⟨(C8_start_driver_guard pianoBadDriver).1,
   (C8_start_driver_guard pianoBadDriver).2 (by decide)⟩

/-- C7: with the default sound-font path, load_instrument raises ValueError
exactly when the argument is not one of the eight default instrument names,
and otherwise sends the name's General MIDI number on channel 1, bank 0; with
a non-default path no guard is applied and the argument is passed through
unchanged; the stored instrument is updated on every successful call. -/
theorem C7_load_instrument_spec (p : Piano) (instr : Instr) :
    (p.sound_fonts_path = DEFAULT_SOUND_FONTS →
      ((load_instrument p instr).err = some PError.valueError
          ↔ instrumentIsDefaultName instr = false)
      ∧ (∀ (s : String) (n : Int), instr = Instr.name s → gmLookup s = some n →
          (load_instrument p instr).err = none
          ∧ (load_instrument p instr).events
            = [Event.setInstrument 1 (Instr.num n) 0]
          ∧ (load_instrument p instr).piano.instrument = instr))
    ∧ (p.sound_fonts_path ≠ DEFAULT_SOUND_FONTS →
        (load_instrument p instr).err = none
        ∧ (load_instrument p instr).events = [Event.setInstrument 1 instr 0]
        ∧ (load_instrument p instr).piano.instrument = instr) := by
  constructor
  · intro hd
    constructor
    · cases instr with
      | name s =>
        cases hg : gmLookup s with
        | some n =>
          rw [load_instrument_default_known hd hg]
          constructor
          · intro hc
            exact Option.noConfusion hc
          · intro hc
            rw [← gmLookup_none_iff s] at hc
            rw [hg] at hc
            exact Option.noConfusion hc
        | none =>
          rw [load_instrument_default_unknown hd hg]
          exact ⟨fun _ => (gmLookup_none_iff s).mp hg, fun _ => rfl⟩
      | num n =>
        rw [load_instrument_default_num hd]
        exact ⟨fun _ => rfl, fun _ => rfl⟩
    · intro s n heq hg
      subst heq
      rw [load_instrument_default_known hd hg]
      exact ⟨rfl, rfl, rfl⟩
  · intro hd
    rw [load_instrument_nondefault hd instr]
    exact ⟨rfl, rfl, rfl⟩

/-- C7 witness: a default instrument name with default fonts, and an integer
pass-through with non-default fonts. -/
theorem C7_load_instrument_spec_witness :
    (((load_instrument pianoA (Instr.name "Harpsichord")).err
          = some PError.valueError
        ↔ instrumentIsDefaultName (Instr.name "Harpsichord") = false)
      ∧ (load_instrument pianoA (Instr.name "Harpsichord")).err = none
      ∧ (load_instrument pianoA (Instr.name "Harpsichord")).events
        = [Event.setInstrument 1 (Instr.num 6) 0]
      ∧ (load_instrument pianoA (Instr.name "Harpsichord")).piano.instrument
        = Instr.name "Harpsichord")
    ∧ ((load_instrument pianoOtherFonts (Instr.num 42)).err = none
      ∧ (load_instrument pianoOtherFonts (Instr.num 42)).events
        = [Event.setInstrument 1 (Instr.num 42) 0]
      ∧ (load_instrument pianoOtherFonts (Instr.num 42)).piano.instrument
        = Instr.num 42) := by
  have h1 := (C7_load_instrument_spec pianoA (Instr.name "Harpsichord")).1 rfl
  have h2 := (C7_load_instrument_spec pianoOtherFonts (Instr.num 42)).2
    (by decide)
  have h3 := h1.2 "Harpsichord" 6 rfl (by decide)
  exact ⟨⟨h1.1, h3.1, h3.2.1, h3.2.2⟩, h2⟩

/-- C1 counterexample: a container whose only note is on the keyboard still
makes play raise ValueError when the configured audio driver is invalid (the
driver guard in _start_audio_output also raises ValueError), so "ValueError
iff an invalid note" fails as stated. -/
theorem C1_counterexample :
    (∀ n ∈ (containerNoteStrings (MusicContainer.str "C-4")).getD [],
        pianoBadDriver.keyboard.distinct_key_names.contains n = true)
    ∧ (play pianoBadDriver (MusicContainer.str "C-4") none 4 true).err
        = some PError.valueError := by
  exact ⟨by decide, by decide⟩

/-- C1 (amended): provided the configured audio driver is one of the valid
drivers, play raises ValueError iff the container holds a note whose string
form is not among the keyboard's key names, and when it does the engine has
not been called at all (validation precedes any playback or recording). -/
theorem C1_play_valueError_iff (p : Piano) (mc : MusicContainer)
    (rf : Option String) (rs : Nat) (sr : Bool) (ns : List String)
    (hdrv : p.current_audio_driver ∈ VALID_AUDIO_DRIVERS)
    (hshape : containerNoteStrings mc = some ns) :
    ((play p mc rf rs sr).err = some PError.valueError
      ↔ ∃ n ∈ ns, p.keyboard.distinct_key_names.contains n = false)
    ∧ ((play p mc rf rs sr).err = some PError.valueError
        → (play p mc rf rs sr).events = []) := by
  have hls := lint_spec p.keyboard hshape
  by_cases hall : ns.all (fun n => p.keyboard.distinct_key_names.contains n)
      = true
  · have hl : lint_music_container p.keyboard mc = none := by
      rw [hls, if_pos hall]
    have herr : (play p mc rf rs sr).err = none := by
      cases rf with
      | none => rw [play_live hl hdrv rs sr]
      | some f =>
        cases sr with
        | false => rw [play_record_keep_open hl f rs]
        | true => rw [play_record_and_stop hl hdrv f rs]
    rw [herr]
    constructor
    · constructor
      · intro hc
        exact Option.noConfusion hc
      · rintro ⟨n, hn, hcf⟩
        rw [List.all_eq_true] at hall
        rw [hall n hn] at hcf
        exact Bool.noConfusion hcf
    · intro hc
      exact Option.noConfusion hc
  · have hl : lint_music_container p.keyboard mc = some PError.valueError := by
      rw [hls, if_neg hall]
    rw [play_lint_err hl rf rs sr]
    refine ⟨⟨fun _ => ?_, fun _ => rfl⟩, fun _ => rfl⟩
    rw [List.all_eq_true] at hall
    push_neg at hall
    obtain ⟨n, hn, hcf⟩ := hall
    exact ⟨n, hn, Bool.eq_false_iff.mpr hcf⟩

/-- C1 witness: the amended statement at a note that is not on the sample
keyboard. -/
theorem C1_play_valueError_iff_witness :
    (pianoA.current_audio_driver ∈ VALID_AUDIO_DRIVERS
      ∧ containerNoteStrings (MusicContainer.note "Z-9") = some ["Z-9"])
    ∧ (((play pianoA (MusicContainer.note "Z-9") none 4 true).err
          = some PError.valueError
        ↔ ∃ n ∈ ["Z-9"],
            pianoA.keyboard.distinct_key_names.contains n = false)
      ∧ ((play pianoA (MusicContainer.note "Z-9") none 4 true).err
          = some PError.valueError
        → (play pianoA (MusicContainer.note "Z-9") none 4 true).events
          = [])) :=
  ⟨⟨by decide, rfl⟩,
   C1_play_valueError_iff pianoA (MusicContainer.note "Z-9") none 4 true
     ["Z-9"] (by decide) rfl⟩

/-- C2 counterexample: with an invalid configured driver and a perfectly
valid container, play with recording_file=None raises ValueError and does not
start audio output, so the claim fails as stated for that reachable state. -/
theorem C2_counterexample :
    (∀ n ∈ (containerNoteStrings (MusicContainer.str "C-4")).getD [],
        pianoBadDriver.keyboard.distinct_key_names.contains n = true)
    ∧ (play pianoBadDriver (MusicContainer.str "C-4") none 4
        true).piano.audio_driver_is_active = false
    ∧ (play pianoBadDriver (MusicContainer.str "C-4") none 4 true).err
        = some PError.valueError := by
  exact ⟨by decide, by decide, by decide⟩

/-- C2 (amended): provided the configured audio driver is valid, play on a
valid container with recording_file=None starts audio output (the flag
becomes true) and plays the container live; with a recording_file path it
stops audio output first, records the container to the file, and with
stop_recording=true closes the file and restarts audio output, leaving the
flag true again. -/
theorem C2_play_modes (p : Piano) (mc : MusicContainer) (rs : Nat)
    (hdrv : p.current_audio_driver ∈ VALID_AUDIO_DRIVERS)
    (hvalid : lint_music_container p.keyboard mc = none) :
    ((play p mc none rs true).err = none
      ∧ (play p mc none rs true).piano.audio_driver_is_active = true
      ∧ (play p mc none rs true).events
          = (start_audio_output p).events
            ++ play_music_container p.keyboard mc)
    ∧ (∀ f : String,
        (play p mc (some f) rs true).err = none
        ∧ (play p mc (some f) rs true).piano.audio_driver_is_active = true
        ∧ (play p mc (some f) rs true).piano.wavOpen = false
        ∧ (play p mc (some f) rs true).events
            = (stop_audio_output p).2 ++ [Event.startRecording f]
              ++ play_music_container p.keyboard mc
              ++ [Event.getSamples (rs * 44100),
                  Event.writeFrames (rs * 44100), Event.wavClose,
                  Event.startDriver p.current_audio_driver,
                  Event.programReset]) := by
  constructor
  · rw [play_live hvalid hdrv rs true]
    exact ⟨rfl, start_audio_output_active_after hdrv, rfl⟩
  · intro f
    rw [play_record_and_stop hvalid hdrv f rs]
    exact ⟨rfl, rfl, rfl, rfl⟩

/-- C2 witness: the amended statement at an idle state and the note string
C-4. -/
theorem C2_play_modes_witness :
    (pianoIdle.current_audio_driver ∈ VALID_AUDIO_DRIVERS
      ∧ lint_music_container pianoIdle.keyboard (MusicContainer.str "C-4")
        = none)
    ∧ ((play pianoIdle (MusicContainer.str "C-4") none 4 true).err = none
      ∧ (play pianoIdle (MusicContainer.str "C-4") none 4
          true).piano.audio_driver_is_active = true)
    ∧ ((play pianoIdle (MusicContainer.str "C-4") (some "out.wav") 4
          true).err = none
      ∧ (play pianoIdle (MusicContainer.str "C-4") (some "out.wav") 4
          true).piano.audio_driver_is_active = true
      ∧ (play pianoIdle (MusicContainer.str "C-4") (some "out.wav") 4
          true).piano.wavOpen = false) := by
  have h := C2_play_modes pianoIdle (MusicContainer.str "C-4") 4
    (by decide) rfl
  have h2 := h.2 "out.wav"
  exact ⟨⟨by decide, rfl⟩, ⟨h.1.1, h.1.2.1⟩, h2.1, h2.2.1, h2.2.2.1⟩

/-- C9: when __init__ returns, the sound-font-loaded flag is true and the
audio-driver-active flag is false; and in every reachable state the flag is
true only if a startDriver engine call occurred with no deleteDriver call
after it (the driver was started since the last stop). -/
theorem C9_init_flags_and_driver_invariant (env : Engine) (kb : Keyboard)
    (path : String) (drv : Option String) (instr : Instr) :
    ((initPiano env kb path drv instr).err = none →
        (initPiano env kb path drv instr).piano.sound_fonts_loaded = true
        ∧ (initPiano env kb path drv instr).piano.audio_driver_is_active
          = false)
    ∧ (∀ ops : List Op,
        (reachPiano env kb path drv instr ops).audio_driver_is_active = true →
        ∃ (k : Nat) (d : Option String),
          (traceOf env kb path drv instr ops)[k]?
            = some (Event.startDriver d)
          ∧ ∀ j, k < j →
              (traceOf env kb path drv instr ops)[j]?
                ≠ some Event.deleteDriver) := by
  constructor
  · intro h
    exact ⟨initPiano_loaded env kb path drv instr h,
      initPiano_active env kb path drv instr⟩
  · intro ops hact
    rw [reach_active_eq env kb path drv instr ops] at hact
    exact activeAfter_true_start_since _ hact

/-- C9 witness: a default construction, and the reachable state after one
startAudioOutput call. -/
theorem C9_init_flags_and_driver_invariant_witness :
    ((initPiano goodEnv sampleKeyboard DEFAULT_SOUND_FONTS none
        (Instr.name "Acoustic Grand Piano")).err = none
      ∧ (initPiano goodEnv sampleKeyboard DEFAULT_SOUND_FONTS none
          (Instr.name "Acoustic Grand Piano")).piano.sound_fonts_loaded = true
      ∧ (initPiano goodEnv sampleKeyboard DEFAULT_SOUND_FONTS none
          (Instr.name "Acoustic Grand Piano")).piano.audio_driver_is_active
        = false)
    ∧ ((reachPiano goodEnv sampleKeyboard DEFAULT_SOUND_FONTS none
          (Instr.name "Acoustic Grand Piano")
          [Op.startAudioOutput]).audio_driver_is_active = true
      ∧ ∃ (k : Nat) (d : Option String),
          (traceOf goodEnv sampleKeyboard DEFAULT_SOUND_FONTS none
            (Instr.name "Acoustic Grand Piano") [Op.startAudioOutput])[k]?
            = some (Event.startDriver d)
          ∧ ∀ j, k < j →
              (traceOf goodEnv sampleKeyboard DEFAULT_SOUND_FONTS none
                (Instr.name "Acoustic Grand Piano")
                [Op.startAudioOutput])[j]? ≠ some Event.deleteDriver) := by
  have h := C9_init_flags_and_driver_invariant goodEnv sampleKeyboard
    DEFAULT_SOUND_FONTS none (Instr.name "Acoustic Grand Piano")
  have h1 := h.1 (by decide)
  have h2 := h.2 [Op.startAudioOutput] (by decide)
  exact ⟨⟨by decide, h1.1, h1.2⟩, by decide, h2⟩

/-- C10: recording pulls exactly int(record_seconds * 44100) samples from the
engine, right after the container's play events, and writes exactly those
samples to the wav file, with no other sample request or write anywhere in
the call; with stop_recording=false the call succeeds, the wav file stays
open and audio output stays inactive. -/
theorem C10_recording_fixed_length (p : Piano) (mc : MusicContainer)
    (f : String) (rs : Nat)
    (hvalid : lint_music_container p.keyboard mc = none) :
    (∀ sr : Bool, ∃ post : List Event,
        (play p mc (some f) rs sr).events
          = (stop_audio_output p).2 ++ [Event.startRecording f]
            ++ play_music_container p.keyboard mc
            ++ [Event.getSamples (rs * 44100), Event.writeFrames (rs * 44100)]
            ++ post
        ∧ (∀ m : Nat,
            (Event.getSamples m ∉ (stop_audio_output p).2
              ∧ Event.getSamples m ∉ play_music_container p.keyboard mc
              ∧ Event.getSamples m ∉ post)
            ∧ (Event.writeFrames m ∉ (stop_audio_output p).2
              ∧ Event.writeFrames m ∉ play_music_container p.keyboard mc
              ∧ Event.writeFrames m ∉ post)))
    ∧ ((play p mc (some f) rs false).err = none
        ∧ (play p mc (some f) rs false).piano.wavOpen = true
        ∧ (play p mc (some f) rs false).piano.audio_driver_is_active
          = false) := by
  constructor
  · intro sr
    cases sr with
    | false =>
      refine ⟨[], ?_, ?_⟩
      · rw [play_record_keep_open hvalid f rs]
        simp [List.append_assoc]
      · intro m
        exact ⟨⟨(samples_not_mem_stop p m).1, (samples_not_mem_pm _ mc m).1,
            by simp⟩,
          ⟨(samples_not_mem_stop p m).2, (samples_not_mem_pm _ mc m).2,
            by simp⟩⟩
    | true =>
      by_cases hv : p.current_audio_driver ∈ VALID_AUDIO_DRIVERS
      · refine ⟨[Event.wavClose, Event.startDriver p.current_audio_driver,
          Event.programReset], ?_, ?_⟩
        · rw [play_record_and_stop hvalid hv f rs]
          simp [List.append_assoc]
        · intro m
          exact ⟨⟨(samples_not_mem_stop p m).1,
              (samples_not_mem_pm _ mc m).1, by simp⟩,
            ⟨(samples_not_mem_stop p m).2, (samples_not_mem_pm _ mc m).2,
              by simp⟩⟩
      · refine ⟨[Event.wavClose], ?_, ?_⟩
        · rw [play_record_and_stop_invalid hvalid hv f rs]
          simp [List.append_assoc]
        · intro m
          exact ⟨⟨(samples_not_mem_stop p m).1,
              (samples_not_mem_pm _ mc m).1, by simp⟩,
            ⟨(samples_not_mem_stop p m).2, (samples_not_mem_pm _ mc m).2,
              by simp⟩⟩
  · rw [play_record_keep_open hvalid f rs]
    refine ⟨rfl, rfl, ?_⟩
    simpa using stop_audio_output_fst_inactive p

/-- C10 witness: recording the note string C-4 for 4 seconds from the idle
state. -/
theorem C10_recording_fixed_length_witness :
    lint_music_container pianoIdle.keyboard (MusicContainer.str "C-4") = none
    ∧ ((play pianoIdle (MusicContainer.str "C-4") (some "out.wav") 4
          false).err = none
      ∧ (play pianoIdle (MusicContainer.str "C-4") (some "out.wav") 4
          false).piano.wavOpen = true
      ∧ (play pianoIdle (MusicContainer.str "C-4") (some "out.wav") 4
          false).piano.audio_driver_is_active = false)
    ∧ (∃ post : List Event,
        (play pianoIdle (MusicContainer.str "C-4") (some "out.wav") 4
            false).events
          = (stop_audio_output pianoIdle).2
            ++ [Event.startRecording "out.wav"]
            ++ play_music_container pianoIdle.keyboard
              (MusicContainer.str "C-4")
            ++ [Event.getSamples (4 * 44100), Event.writeFrames (4 * 44100)]
            ++ post
        ∧ (∀ m : Nat,
            (Event.getSamples m ∉ (stop_audio_output pianoIdle).2
              ∧ Event.getSamples m
                ∉ play_music_container pianoIdle.keyboard
                  (MusicContainer.str "C-4")
              ∧ Event.getSamples m ∉ post)
            ∧ (Event.writeFrames m ∉ (stop_audio_output pianoIdle).2
              ∧ Event.writeFrames m
                ∉ play_music_container pianoIdle.keyboard
                  (MusicContainer.str "C-4")
              ∧ Event.writeFrames m ∉ post))) := by
  have h := C10_recording_fixed_length pianoIdle (MusicContainer.str "C-4")
    "out.wav" 4 rfl
  exact ⟨rfl, h.2, h.1 false⟩

end Pyano
